import Mathlib

/-!
Shallow embedding of `Poco::Data::Statement` (Data/include/Poco/Data/Statement.h).

The header contains the class declaration together with a number of inline
member functions (`canModifyStorage`, `initialized`, `paused`, `done`,
`isAsync`, `getRowFormatter`, `setRowFormatter`, the storage manipulators
in namespace `Keywords`, ...).  Those are embedded directly from the source.
The out-of-line member bodies (`execute`, `reset`, `wait`, the bulk-mode
operators, the classification queries, the copy constructor) live in
`Statement.cpp`, which is not part of the repository snapshot; they are
modelled from the specification, and each such definition carries a
doc comment saying so.
-/

namespace PocoData

/-- Execution state of a statement (`StatementImpl::State`):
`ST_INITIALIZED`, `ST_PAUSED`, `ST_DONE`. -/
inductive State where
  | ST_INITIALIZED
  | ST_PAUSED
  | ST_DONE
deriving DecidableEq, Repr

/-- Internal storage kind (`Statement::Storage`). -/
inductive Storage where
  | STORAGE_DEQUE
  | STORAGE_VECTOR
  | STORAGE_LIST
  | STORAGE_UNKNOWN
deriving DecidableEq, Repr

/-- Errors thrown by the facade; `invalidAccess` models
`Poco::InvalidAccessException` (the Mode Conflict error). -/
inductive DataError where
  | invalidAccess (msg : String)
deriving DecidableEq, Repr

/-- The statement-implementation state observable through the facade:
execution state, paging progress (`delivered` rows handed out so far,
`totalRows` rows in the underlying result), the active hard `limit`
(`none` models `Limit::LIMIT_UNLIMITED`, the default), the binding and
extraction registries (modelled by their sizes), the accumulated SQL
text, the bulk-mode flags, the storage kind and the bound session. -/
structure Core where
  state : State
  delivered : Nat
  totalRows : Nat
  limit : Option Nat
  bindCount : Nat
  extractCount : Nat
  stmtText : String
  bulkBinding : Bool
  bulkExtraction : Bool
  storage : Storage
  sessionId : Nat
deriving DecidableEq, Repr

/-- A dispatched asynchronous execution: the one-shot `ActiveResult`
holding the row/affected `count` the job produces, together with the
implementation state `post` the job leaves behind on completion. -/
structure AsyncJob where
  count : Nat
  post : Core
deriving DecidableEq, Repr

/-- A row formatter object (`RowFormatter::Ptr` target): either the
lazily created `SimpleRowFormatter` or an externally supplied one,
distinguished by an identifier. -/
inductive RowFormatter where
  | simple
  | custom (id : Nat)
deriving DecidableEq, Repr

/-- The `Statement` facade: the implementation state `core`, the
`_async` flag, the outstanding async result `pResult` (a null
`SharedPtr` is `none`) and the row formatter pointer `pRowFormatter`
(a null `SharedPtr` is `none`). -/
structure Statement where
  core : Core
  async : Bool
  pResult : Option AsyncJob
  pRowFormatter : Option RowFormatter
deriving DecidableEq, Repr

/-- `Statement::extractionCount()` forwards to the implementation:
number of extraction buffers of the current data set. -/
def extractionCount (s : Statement) : Nat :=
  s.core.extractCount

/-- `Statement::initialized()`: the state equals `ST_INITIALIZED`. -/
def initialized (s : Statement) : Bool :=
  decide (s.core.state = State.ST_INITIALIZED)

/-- `Statement::paused()`: the state equals `ST_PAUSED`. -/
def paused (s : Statement) : Bool :=
  decide (s.core.state = State.ST_PAUSED)

/-- `Statement::done()`: the state equals `ST_DONE`. -/
def done (s : Statement) : Bool :=
  decide (s.core.state = State.ST_DONE)

/-- `Statement::canModifyStorage()`:
`(0 == extractionCount()) && (initialized() || done())`. -/
def canModifyStorage (s : Statement) : Bool :=
  (0 == extractionCount s) && (initialized s || done s)

/-- `Statement::isAsync()`: returns the `_async` flag. -/
def isAsync (s : Statement) : Bool :=
  s.async

/-- `Statement::setAsync(async)`: sets the `_async` flag. -/
def setAsync (flag : Bool) (s : Statement) : Statement :=
  { s with async := flag }

/-- Modelled from the spec: `StatementImpl::setStorage(string)` is not in
the snapshot; the storage keyword strings map onto the storage kinds. -/
def storageFromString (stor : String) : Storage :=
  if stor = "deque" then Storage.STORAGE_DEQUE
  else if stor = "vector" then Storage.STORAGE_VECTOR
  else if stor = "list" then Storage.STORAGE_LIST
  else Storage.STORAGE_UNKNOWN

/-- `Statement::setStorage(storage)` forwards to the implementation. -/
def setStorage (stor : String) (s : Statement) : Statement :=
  { s with core := { s.core with storage := storageFromString stor } }

namespace Keywords

/-- `Keywords::deque` manipulator: throws `InvalidAccessException`
("Storage not modifiable.") unless `canModifyStorage()`, then sets the
storage to "deque". -/
def deque (statement : Statement) : Except DataError Statement :=
  if !(canModifyStorage statement) then
    Except.error (DataError.invalidAccess "Storage not modifiable.")
  else
    Except.ok (setStorage "deque" statement)

/-- `Keywords::vector` manipulator: throws `InvalidAccessException`
unless `canModifyStorage()`, then sets the storage to "vector". -/
def vector (statement : Statement) : Except DataError Statement :=
  if !(canModifyStorage statement) then
    Except.error (DataError.invalidAccess "Storage not modifiable.")
  else
    Except.ok (setStorage "vector" statement)

/-- `Keywords::list` manipulator: throws `InvalidAccessException`
unless `canModifyStorage()`, then sets the storage to "list". -/
def list (statement : Statement) : Except DataError Statement :=
  if !(canModifyStorage statement) then
    Except.error (DataError.invalidAccess "Storage not modifiable.")
  else
    Except.ok (setStorage "list" statement)

/-- `Keywords::reset` manipulator: throws `InvalidAccessException`
unless `canModifyStorage()`, then sets the storage to "deque" and the
async flag to false. -/
def reset (statement : Statement) : Except DataError Statement :=
  if !(canModifyStorage statement) then
    Except.error (DataError.invalidAccess "Storage not modifiable.")
  else
    Except.ok (setAsync false (setStorage "deque" statement))

end Keywords

/-- `Statement::setRowFormatter(pRowFormatter)`:
assigns `_pRowFormatter = pRowFormatter`. -/
def setRowFormatter (p : Option RowFormatter) (s : Statement) : Statement :=
  { s with pRowFormatter := p }

/-- `Statement::operator,(RowFormatter::Ptr)`:
assigns `_pRowFormatter = pRowFformatter`. -/
def commaRowFormatter (p : Option RowFormatter) (s : Statement) : Statement :=
  { s with pRowFormatter := p }

/-- `Statement::getRowFormatter()`:
`if (!_pRowFormatter) _pRowFormatter = new SimpleRowFormatter; return _pRowFormatter;`.
Returns the formatter together with the (possibly updated) statement. -/
def getRowFormatter (s : Statement) : RowFormatter × Statement :=
  match s.pRowFormatter with
  | none => (RowFormatter.simple, { s with pRowFormatter := some RowFormatter.simple })
  | some f => (f, s)

/-- Modelled from the spec: one synchronous paging step of
`Statement::execute` / `StatementImpl::execute` (bodies in
`Statement.cpp` / `StatementImpl.cpp`, not in the snapshot).
Per the Paging Controller rule: compute the fetch ceiling from the
active Limit (unbounded when none), fetch up to that many rows from the
backend; if more rows remain and the ceiling was hit the state becomes
`ST_PAUSED`, otherwise `ST_DONE`.  Returns the per-call row count and
the updated implementation state. -/
def executeSyncStep (c : Core) : Nat × Core :=
  match c.limit with
  | none =>
      (c.totalRows - c.delivered,
       { c with delivered := c.totalRows, state := State.ST_DONE })
  | some l =>
      let fetched := min l (c.totalRows - c.delivered)
      let d' := c.delivered + fetched
      let st :=
        if d' < c.totalRows ∧ fetched = l then State.ST_PAUSED else State.ST_DONE
      (fetched, { c with delivered := d', state := st })

/-- The asynchronous job produced for a statement: it runs the full
paging step on a worker; its one-shot result holds the row/affected
count, and `post` is the implementation state it leaves behind. -/
def asyncJobOf (s : Statement) : AsyncJob :=
  { count := (executeSyncStep s.core).1, post := (executeSyncStep s.core).2 }

/-- Modelled from the spec: dispatching one asynchronous execution
(`Statement::doAsyncExec`, body not in the snapshot): the job is handed
to the statement's worker and the outstanding result handle is stored;
the caller-visible state is untouched until synchronization. -/
def dispatchAsync (s : Statement) : Statement :=
  { s with pResult := some (asyncJobOf s) }

/-- Modelled from the spec: `Statement::execute(reset)` (body in
`Statement.cpp`, not in the snapshot).  If the `_async` flag is set the
statement executes asynchronously and the call returns 0 immediately;
otherwise one synchronous paging step runs and its row count is
returned.  The `reset` argument only controls extraction-buffer reuse
and is not modelled. -/
def execute (s : Statement) : Nat × Statement :=
  if s.async then
    (0, dispatchAsync s)
  else
    ((executeSyncStep s.core).1, { s with core := (executeSyncStep s.core).2 })

/-- Modelled from the spec: `Statement::executeAsync(reset)` (body not
in the snapshot): dispatches the job asynchronously regardless of the
`_async` flag, without altering the flag, and returns the result
handle. -/
def executeAsync (s : Statement) : AsyncJob × Statement :=
  (asyncJobOf s, dispatchAsync s)

/-- `Statement::WAIT_FOREVER = -1`. -/
def WAIT_FOREVER : Int := -1

/-- Outcome of a `wait` call: the execution's row/affected count on
completion, or a timeout (which is not an error). -/
inductive WaitOutcome where
  | completed (count : Nat)
  | timedOut
deriving DecidableEq, Repr

/-- Synchronizing a statement with its completed asynchronous job: the
job's final implementation state becomes visible. -/
def applyJob (job : AsyncJob) (s : Statement) : Statement :=
  { s with core := job.post }

/-- Modelled from the spec: `Statement::wait(milliseconds)` (body not in
the snapshot).  With no outstanding asynchronous execution it returns 0
immediately.  Otherwise it blocks on the job's completion: real time is
abstracted by `jobFinished`, which says whether the job completes within
the timeout window; `WAIT_FOREVER` (-1) blocks indefinitely, so the job
always completes in that case.  On completion the call returns the
job's row/affected count and the statement is synchronized; on timeout
the statement (and the outstanding job) is unchanged, so it can be
waited on again. -/
def wait (milliseconds : Int) (jobFinished : Bool) (s : Statement) :
    WaitOutcome × Statement :=
  match s.pResult with
  | none => (WaitOutcome.completed 0, s)
  | some job =>
      if milliseconds = WAIT_FOREVER ∨ jobFinished = true then
        (WaitOutcome.completed job.count, applyJob job s)
      else
        (WaitOutcome.timedOut, s)

/-- Modelled from the spec: the copy constructor
`Statement::Statement(const Statement&)` (body not in the snapshot):
a statement copied while an unsynchronized asynchronous execution is
outstanding is synchronized first (an unbounded wait), then copied, so
the original (first component) and the copy (second component) observe
the same final state. -/
def copyStatement (s : Statement) : Statement × Statement :=
  ((wait WAIT_FOREVER false s).2, (wait WAIT_FOREVER false s).2)

/-- Modelled from the spec: `Statement::addBind` (body not in the
snapshot): registers one binding; fails with the Mode Conflict error if
bulk binding mode is active. -/
def addBind (s : Statement) : Except DataError Statement :=
  if s.core.bulkBinding then
    Except.error (DataError.invalidAccess "Mode Conflict")
  else
    Except.ok { s with core := { s.core with bindCount := s.core.bindCount + 1 } }

/-- Modelled from the spec: `Statement::addExtract` (body not in the
snapshot): registers one extraction; fails with the Mode Conflict error
if bulk extraction mode is active. -/
def addExtract (s : Statement) : Except DataError Statement :=
  if s.core.bulkExtraction then
    Except.error (DataError.invalidAccess "Mode Conflict")
  else
    Except.ok { s with core := { s.core with extractCount := s.core.extractCount + 1 } }

/-- Modelled from the spec: `Statement::operator,(const Bulk&)` (body
not in the snapshot): enabling bulk execution mode requires zero
registered bindings and extractions; violating this fails with
`InvalidAccessException` (Mode Conflict); otherwise both bulk flags are
set. -/
def commaBulk (s : Statement) : Except DataError Statement :=
  if s.core.bindCount = 0 ∧ s.core.extractCount = 0 then
    Except.ok { s with core := { s.core with bulkBinding := true, bulkExtraction := true } }
  else
    Except.error (DataError.invalidAccess "Mode Conflict")

/-- Modelled from the spec: `Statement::operator,(BulkFnType)` (body not
in the snapshot): like the `Bulk` overload but additionally requires a
Limit to already be set (it sizes the bulk batch); absence of a Limit is
also a Mode Conflict error. -/
def commaBulkFn (s : Statement) : Except DataError Statement :=
  if s.core.limit = none then
    Except.error (DataError.invalidAccess "Mode Conflict")
  else
    commaBulk s

/-- Modelled from the spec: `Statement::reset()` (body not in the
snapshot): returns the state to `ST_INITIALIZED` and clears the binding
registry, the extraction registry, the accumulated statement text and
the paging progress, so the statement can be filled with a new query. -/
def resetStatement (s : Statement) : Statement :=
  { s with core := { s.core with
      state := State.ST_INITIALIZED
      delivered := 0
      bindCount := 0
      extractCount := 0
      stmtText := "" } }

/-- Modelled from the spec: `Statement::reset(Session&)` (body not in
the snapshot): resets the statement and additionally rebinds it to the
new session. -/
def resetWithSession (sess : Nat) (s : Statement) : Statement :=
  { resetStatement s with
    core := { (resetStatement s).core with sessionId := sess } }

/-- SQL statement types the classifier recognizes. -/
inductive SqlStatementType where
  | SELECT
  | INSERT
  | UPDATE
  | DELETE
deriving DecidableEq, Repr

/-- The Parser collaborator as seen by the facade: `available` is false
for builds with `POCO_DATA_NO_SQL_PARSER`; `parseFn` is the black-box
classifier, returning the per-statement types on success or an error
message on (silent) failure. -/
structure ParserConfig where
  available : Bool
  parseFn : String → Except String (List SqlStatementType)

/-- Modelled from the spec: running the classifier over the accumulated
text.  When no parser is configured the result is always the
unspecified sentinel (`none`). -/
def parseText (cfg : ParserConfig) (text : String) :
    Option (List SqlStatementType) :=
  if cfg.available then (cfg.parseFn text).toOption else none

/-- Modelled from the spec: `Statement::parse()` (body not in the
snapshot): `some true` on classification success, `some false` on
failure, and the unspecified sentinel when no parser is configured. -/
def parse (cfg : ParserConfig) (s : Statement) : Option Bool :=
  if cfg.available then some (cfg.parseFn s.core.stmtText).isOk else none

/-- Modelled from the spec: `Statement::parseError()` (body not in the
snapshot): the recorded classification failure message; always the
empty string when no parser is configured. -/
def parseError (cfg : ParserConfig) (s : Statement) : String :=
  if cfg.available then
    match cfg.parseFn s.core.stmtText with
    | Except.error msg => msg
    | Except.ok _ => ""
  else ""

/-- Modelled from the spec: `Statement::statementsCount()` (body not in
the snapshot): the number of classified SQL statements, or the
unspecified sentinel when classification is unavailable. -/
def statementsCount (cfg : ParserConfig) (s : Statement) : Option Nat :=
  (parseText cfg s.core.stmtText).map List.length

/-- Modelled from the spec: `Statement::isType(type)` (body not in the
snapshot): whether the text consists only of statements of the given
type; unspecified when classification is unavailable. -/
def isType (cfg : ParserConfig) (t : SqlStatementType) (s : Statement) :
    Option Bool :=
  (parseText cfg s.core.stmtText).map
    (fun types => types.all (fun x => decide (x = t)))

/-- Modelled from the spec: `Statement::hasType(type)` (body not in the
snapshot): whether the text contains a statement of the given type;
unspecified when classification is unavailable. -/
def hasType (cfg : ParserConfig) (t : SqlStatementType) (s : Statement) :
    Option Bool :=
  (parseText cfg s.core.stmtText).map
    (fun types => types.any (fun x => decide (x = t)))

/-- `Statement::isSelect()` forwards to `isType(SELECT)`. -/
def isSelect (cfg : ParserConfig) (s : Statement) : Option Bool :=
  isType cfg SqlStatementType.SELECT s

/-- `Statement::isInsert()` forwards to `isType(INSERT)`. -/
def isInsert (cfg : ParserConfig) (s : Statement) : Option Bool :=
  isType cfg SqlStatementType.INSERT s

/-- `Statement::isUpdate()` forwards to `isType(UPDATE)`. -/
def isUpdate (cfg : ParserConfig) (s : Statement) : Option Bool :=
  isType cfg SqlStatementType.UPDATE s

/-- `Statement::isDelete()` forwards to `isType(DELETE)`. -/
def isDelete (cfg : ParserConfig) (s : Statement) : Option Bool :=
  isType cfg SqlStatementType.DELETE s

/-- `Statement::hasSelect()` forwards to `hasType(SELECT)`. -/
def hasSelect (cfg : ParserConfig) (s : Statement) : Option Bool :=
  hasType cfg SqlStatementType.SELECT s

/-- `Statement::hasInsert()` forwards to `hasType(INSERT)`. -/
def hasInsert (cfg : ParserConfig) (s : Statement) : Option Bool :=
  hasType cfg SqlStatementType.INSERT s

/-- `Statement::hasUpdate()` forwards to `hasType(UPDATE)`. -/
def hasUpdate (cfg : ParserConfig) (s : Statement) : Option Bool :=
  hasType cfg SqlStatementType.UPDATE s

/-- `Statement::hasDelete()` forwards to `hasType(DELETE)`. -/
def hasDelete (cfg : ParserConfig) (s : Statement) : Option Bool :=
  hasType cfg SqlStatementType.DELETE s

/-- The Session collaborator as seen by the Transaction Gate: whether an
explicit transaction is already open and whether autocommit is on. -/
structure SessionState where
  inTransaction : Bool
  autocommit : Bool
deriving DecidableEq, Repr

/-- Modelled from the spec: `Statement::checkBeginTransaction()` (body
not in the snapshot): returns whether a transaction is auto-started
before delegating to the backend.  It is started only when the session
is neither already in a transaction nor in autocommit mode,
classification succeeds, and the text is not composed purely of SELECT
statements; when classification fails or no parser is configured, no
transaction is started. -/
def checkBeginTransaction (cfg : ParserConfig) (sess : SessionState)
    (s : Statement) : Bool :=
  if !sess.inTransaction && !sess.autocommit then
    match parseText cfg s.core.stmtText with
    | some types => !(types.all (fun t => decide (t = SqlStatementType.SELECT)))
    | none => false
  else false

/-- Repeated `execute` calls: `runN n s` performs `n` calls, collecting
the per-call row counts in order, and returns the final statement. -/
def runN : Nat → Statement → List Nat × Statement
  | 0, s => ([], s)
  | n + 1, s =>
      ((execute s).1 :: (runN n (execute s).2).1, (runN n (execute s).2).2)

/-- The final per-call row count as the specification's words state it:
"final count = R mod L, or L if evenly divisible".  Used only to compare
the claim's formula with the embedded behaviour. -/
def specFinalCount (R L : Nat) : Nat :=
  if R % L = 0 then L else R % L

section PagingLemmas

/-- One synchronous call that hits the ceiling with rows left over:
exactly `l` rows are delivered and the statement pauses. -/
lemma execute_step_mid (s : Statement) (l : Nat)
    (ha : s.async = false) (hl : s.core.limit = some l)
    (hfit : s.core.delivered + l < s.core.totalRows) :
    execute s = (l, { s with core := { s.core with
        delivered := s.core.delivered + l, state := State.ST_PAUSED } }) := by
  have hmin : min l (s.core.totalRows - s.core.delivered) = l := by omega
  simp only [execute, ha, Bool.false_eq_true, if_false, executeSyncStep, hl]
  rw [hmin, if_pos ⟨hfit, rfl⟩]

/-- One synchronous call that exhausts the result: the remaining
`totalRows - delivered` rows are delivered and the statement is done. -/
lemma execute_step_fin (s : Statement) (l : Nat)
    (ha : s.async = false) (hl : s.core.limit = some l)
    (hle : s.core.delivered ≤ s.core.totalRows)
    (hfit : s.core.totalRows ≤ s.core.delivered + l) :
    execute s = (s.core.totalRows - s.core.delivered, { s with core := { s.core with
        delivered := s.core.totalRows, state := State.ST_DONE } }) := by
  have hmin : min l (s.core.totalRows - s.core.delivered)
      = s.core.totalRows - s.core.delivered := by omega
  have hdel : s.core.delivered + (s.core.totalRows - s.core.delivered)
      = s.core.totalRows := by omega
  simp only [execute, ha, Bool.false_eq_true, if_false, executeSyncStep, hl]
  rw [hmin, hdel, if_neg (by omega)]

/-- Running `n` calls while `n` full pages still fit strictly below the
row total: every call returns `l` rows, the delivery counter advances by
`n * l`, and the statement is paused after every call (after zero calls
it keeps its state). -/
lemma runN_mid (l : Nat) :
    ∀ (n : Nat) (s : Statement), s.async = false → s.core.limit = some l →
      s.core.delivered + n * l < s.core.totalRows →
      runN n s = (List.replicate n l, { s with core := { s.core with
          delivered := s.core.delivered + n * l,
          state := if n = 0 then s.core.state else State.ST_PAUSED } }) := by
  intro n
  induction n with
  | zero =>
      intro s ha hl hfit
      simp [runN]
  | succ m ih =>
      intro s ha hl hfit
      have hmul : (m + 1) * l = m * l + l := Nat.succ_mul m l
      have hstep : s.core.delivered + l < s.core.totalRows := by omega
      have he := execute_step_mid s l ha hl hstep
      have hih := ih { s with core := { s.core with
          delivered := s.core.delivered + l, state := State.ST_PAUSED } }
        ha hl (by
          show s.core.delivered + l + m * l < s.core.totalRows
          omega)
      simp only [runN, he, hih]
      have harith : s.core.delivered + l + m * l
          = s.core.delivered + (m + 1) * l := by omega
      rw [harith]
      simp [List.replicate_succ]

/-- Peeling the last call off a run of `n + 1` calls. -/
lemma runN_succ_snoc (n : Nat) :
    ∀ s : Statement, runN (n + 1) s =
      ((runN n s).1 ++ [(execute (runN n s).2).1], (execute (runN n s).2).2) := by
  induction n with
  | zero =>
      intro s
      simp [runN]
  | succ m ih =>
      intro s
      have h1 : runN (m + 1 + 1) s
          = ((execute s).1 :: (runN (m + 1) (execute s).2).1,
             (runN (m + 1) (execute s).2).2) := rfl
      have h2 : runN (m + 1) s
          = ((execute s).1 :: (runN m (execute s).2).1,
             (runN m (execute s).2).2) := rfl
      rw [h1, ih (execute s).2, h2]
      simp [List.cons_append]

/-- Arithmetic of the last page: with `j = (R - 1) / l` full pages before
it, the last call's row count `R - j * l` equals the specification's
formula `R mod l, or l if evenly divisible` (for `R > 0`). -/
lemma lastPage_eq_specFinalCount (R l : Nat) (hLpos : 0 < l) (hRpos : 0 < R) :
    R - ((R - 1) / l) * l = specFinalCount R l := by
  have hj := Nat.div_add_mod' (R - 1) l
  have hblt : (R - 1) % l < l := Nat.mod_lt (R - 1) hLpos
  have hRdecomp : R = ((R - 1) % l + 1) + ((R - 1) / l) * l := by omega
  have hcount : R - ((R - 1) / l) * l = (R - 1) % l + 1 := by omega
  have hmod : R % l = ((R - 1) % l + 1) % l := by
    conv_lhs => rw [hRdecomp, Nat.add_mul_mod_self_right]
  unfold specFinalCount
  rcases Nat.lt_or_ge ((R - 1) % l + 1) l with hlt | hge
  · have hml : R % l = (R - 1) % l + 1 := by rw [hmod, Nat.mod_eq_of_lt hlt]
    rw [hml, if_neg (by omega), hcount]
  · have hbl : (R - 1) % l + 1 = l := by omega
    have hml : R % l = 0 := by rw [hmod, hbl, Nat.mod_self]
    rw [hml, if_pos rfl, hcount, hbl]

end PagingLemmas

/-- Claim C1 (amended with the hypothesis `0 < R`): for a synchronous
statement with hard limit `l > 0` over an underlying result of `R > 0`
rows, the run of `k = (R-1)/l + 1` execute calls delivers per-call row
counts `l, ..., l, R - ((R-1)/l)*l`; the counts sum to `R`; the final
count equals `R mod l` (or `l` when `l` divides `R` evenly); every
call before the last leaves the statement Paused and the last leaves it
Done; and each call resumes where the previous stopped: after `i` calls
exactly `min (i*l) R` rows have been delivered, so no row is ever
re-fetched. -/
theorem claim1_hard_limit_paging (s : Statement) (l R : Nat)
    (ha : s.async = false) (hinit : s.core.state = State.ST_INITIALIZED)
    (hd : s.core.delivered = 0) (hl : s.core.limit = some l)
    (hR : s.core.totalRows = R) (hLpos : 0 < l) (hRpos : 0 < R) :
    (runN ((R - 1) / l + 1) s).1
        = List.replicate ((R - 1) / l) l ++ [R - ((R - 1) / l) * l] ∧
    ((runN ((R - 1) / l + 1) s).1).sum = R ∧
    R - ((R - 1) / l) * l = specFinalCount R l ∧
    (runN ((R - 1) / l + 1) s).2.core.state = State.ST_DONE ∧
    (∀ i, 0 < i → i < (R - 1) / l + 1 →
        (runN i s).2.core.state = State.ST_PAUSED) ∧
    (∀ i, i ≤ (R - 1) / l + 1 →
        (runN i s).2.core.delivered = min (i * l) R) := by
  have hjle : ((R - 1) / l) * l ≤ R - 1 := Nat.div_mul_le_self (R - 1) l
  have hjlt : ((R - 1) / l) * l < R := by omega
  have hdivmod := Nat.div_add_mod' (R - 1) l
  have hmodlt : (R - 1) % l < l := Nat.mod_lt (R - 1) hLpos
  have hRle : R ≤ ((R - 1) / l) * l + l := by omega
  have hmid := runN_mid l ((R - 1) / l) s ha hl (by rw [hd, hR]; omega)
  have hfin := execute_step_fin
    { s with core := { s.core with
        delivered := s.core.delivered + ((R - 1) / l) * l,
        state := if (R - 1) / l = 0 then s.core.state else State.ST_PAUSED } } l
    ha hl
    (by show s.core.delivered + ((R - 1) / l) * l ≤ s.core.totalRows
        rw [hd, hR]; omega)
    (by show s.core.totalRows ≤ s.core.delivered + ((R - 1) / l) * l + l
        rw [hd, hR]; omega)
  have hsnoc := runN_succ_snoc ((R - 1) / l) s
  rw [hmid] at hsnoc
  rw [hfin] at hsnoc
  dsimp only at hsnoc
  rw [hd, hR] at hsnoc
  simp only [Nat.zero_add] at hsnoc
  refine ⟨?_, ?_, ?_, ?_, ?_, ?_⟩
  · rw [hsnoc]
  · rw [hsnoc]
    rw [List.sum_append, List.sum_replicate, smul_eq_mul, List.sum_singleton]
    omega
  · exact lastPage_eq_specFinalCount R l hLpos hRpos
  · rw [hsnoc]
  · intro i hi0 hik
    have hij : i ≤ (R - 1) / l := by omega
    have himul : i * l ≤ ((R - 1) / l) * l := Nat.mul_le_mul_right l hij
    have hmidi := runN_mid l i s ha hl (by rw [hd, hR]; omega)
    rw [hmidi]
    show (if i = 0 then s.core.state else State.ST_PAUSED) = State.ST_PAUSED
    rw [if_neg (by omega)]
  · intro i hik
    rcases Nat.lt_or_ge i ((R - 1) / l + 1) with hilt | hige
    · have hij : i ≤ (R - 1) / l := by omega
      have himul : i * l ≤ ((R - 1) / l) * l := Nat.mul_le_mul_right l hij
      have hmidi := runN_mid l i s ha hl (by rw [hd, hR]; omega)
      rw [hmidi]
      show s.core.delivered + i * l = min (i * l) R
      rw [hd]
      omega
    · have hieq : i = (R - 1) / l + 1 := by omega
      rw [hieq, hsnoc]
      show R = min (((R - 1) / l + 1) * l) R
      have hsuc : ((R - 1) / l + 1) * l = ((R - 1) / l) * l + l :=
        Nat.succ_mul ((R - 1) / l) l
      omega

/-- A fresh synchronous SELECT statement over 25 rows with hard limit 10
(the specification's example scenario), used by concrete witnesses. -/
def pagedCore : Core :=
  ⟨State.ST_INITIALIZED, 0, 25, some 10, 0, 0, "SELECT * FROM T", false, false,
   Storage.STORAGE_DEQUE, 0⟩

/-- The statement wrapping `pagedCore`. -/
def pagedStmt : Statement := ⟨pagedCore, false, none, none⟩

/-- A fresh statement with hard limit 1 over an empty (0-row) result. -/
def emptyResultStmt : Statement :=
  ⟨{ pagedCore with totalRows := 0, limit := some 1 }, false, none, none⟩

/-- A fresh unlimited statement (no limit set) over 25 rows. -/
def unlimitedStmt : Statement :=
  ⟨{ pagedCore with limit := none }, false, none, none⟩

/-- A statement that already has one registered binding. -/
def busyStmt : Statement :=
  ⟨{ pagedCore with bindCount := 1 }, false, none, none⟩

/-- A statement whose async flag is set. -/
def asyncStmt : Statement := ⟨pagedCore, true, none, none⟩

/-- A completed-execution job delivering 7 rows. -/
def sampleJob : AsyncJob := ⟨7, { pagedCore with state := State.ST_DONE }⟩

/-- A statement with an outstanding, unsynchronized asynchronous
execution. -/
def jobbedStmt : Statement := ⟨pagedCore, true, some sampleJob, none⟩

/-- Claim C1 witness: on the 25-row / limit-10 scenario the three calls
return 10, 10 and 5 rows, the first two pause the statement and the
third finishes it. -/
theorem claim1_hard_limit_paging_witness :
    (runN 3 pagedStmt).1 = [10, 10, 5] ∧
    (runN 3 pagedStmt).2.core.state = State.ST_DONE ∧
    (runN 2 pagedStmt).2.core.state = State.ST_PAUSED := by
  have h := claim1_hard_limit_paging pagedStmt 10 25 rfl rfl rfl rfl rfl
    (by decide) (by decide)
  exact ⟨h.1.trans (by decide), h.2.2.2.1, h.2.2.2.2.1 2 (by decide) (by decide)⟩

/-- Claim C1 counterexample: with hard limit L = 1 over an empty result
(R = 0), the single (hence final) `execute` call returns 0 rows and the
statement is Done, while the claim's formula "R mod L rows, or L when L
divides R evenly" demands 1 row (1 divides 0 evenly). -/
theorem claim1_zero_rows_counterexample :
    (runN 1 emptyResultStmt).1 = [0] ∧
    (runN 1 emptyResultStmt).2.core.state = State.ST_DONE ∧
    specFinalCount 0 1 = 1 ∧ (0 : Nat) ≠ 1 := by decide

/-- Claim C2: a synchronous statement with no limit set reaches Done
after a single `execute` call regardless of the number of rows in the
underlying result; the call delivers every remaining row, `done()` is
true afterwards, and `paused()` is false both before and after. -/
theorem claim2_unlimited_single_call (s : Statement)
    (ha : s.async = false) (hl : s.core.limit = none)
    (hinit : s.core.state = State.ST_INITIALIZED) :
    paused s = false ∧
    (execute s).1 = s.core.totalRows - s.core.delivered ∧
    (execute s).2.core.state = State.ST_DONE ∧
    done (execute s).2 = true ∧
    paused (execute s).2 = false := by
  have hx : execute s = (s.core.totalRows - s.core.delivered,
      { s with core := { s.core with
          delivered := s.core.totalRows, state := State.ST_DONE } }) := by
    simp only [execute, ha, Bool.false_eq_true, if_false, executeSyncStep, hl]
  refine ⟨?_, ?_, ?_, ?_, ?_⟩
  · unfold paused
    rw [hinit]
    rfl
  · rw [hx]
  · rw [hx]
  · rw [hx]
    rfl
  · rw [hx]
    rfl

/-- Claim C2 witness: the unlimited 25-row statement is Done and not
paused after one call, which returns all 25 rows. -/
theorem claim2_unlimited_single_call_witness :
    paused unlimitedStmt = false ∧
    (execute unlimitedStmt).1 = 25 ∧
    (execute unlimitedStmt).2.core.state = State.ST_DONE ∧
    done (execute unlimitedStmt).2 = true ∧
    paused (execute unlimitedStmt).2 = false := by
  have h := claim2_unlimited_single_call unlimitedStmt rfl rfl rfl
  exact ⟨h.1, h.2.1, h.2.2.1, h.2.2.2.1, h.2.2.2.2⟩

/-- Claim C3: enabling bulk mode with at least one registered binding or
extraction fails with `InvalidAccessException` (Mode Conflict) for both
the `Bulk` and the `BulkFnType` overloads; the `BulkFnType` overload
also fails with the same error when no Limit is set; with no
bindings/extractions the `Bulk` overload succeeds, and so does the
`BulkFnType` overload when a Limit is set. -/
theorem claim3_bulk_mode_guard (s : Statement) :
    (0 < s.core.bindCount ∨ 0 < s.core.extractCount →
      commaBulk s = Except.error (DataError.invalidAccess "Mode Conflict") ∧
      commaBulkFn s = Except.error (DataError.invalidAccess "Mode Conflict")) ∧
    (s.core.limit = none →
      commaBulkFn s = Except.error (DataError.invalidAccess "Mode Conflict")) ∧
    (s.core.bindCount = 0 → s.core.extractCount = 0 →
      (∃ s', commaBulk s = Except.ok s') ∧
      (s.core.limit ≠ none → ∃ s', commaBulkFn s = Except.ok s')) := by
  refine ⟨?_, ?_, ?_⟩
  · intro h
    have hne : ¬(s.core.bindCount = 0 ∧ s.core.extractCount = 0) := by omega
    refine ⟨?_, ?_⟩
    · unfold commaBulk
      rw [if_neg hne]
    · by_cases hl : s.core.limit = none
      · unfold commaBulkFn
        rw [if_pos hl]
      · unfold commaBulkFn commaBulk
        rw [if_neg hl, if_neg hne]
  · intro hl
    unfold commaBulkFn
    rw [if_pos hl]
  · intro hb hext
    have hyes : s.core.bindCount = 0 ∧ s.core.extractCount = 0 := ⟨hb, hext⟩
    refine ⟨⟨{ s with core := { s.core with
        bulkBinding := true, bulkExtraction := true } }, ?_⟩, ?_⟩
    · unfold commaBulk
      rw [if_pos hyes]
    · intro hl
      refine ⟨{ s with core := { s.core with
          bulkBinding := true, bulkExtraction := true } }, ?_⟩
      unfold commaBulkFn commaBulk
      rw [if_neg hl, if_pos hyes]

/-- Claim C3 witness: bulk mode is refused on a statement with one
binding and on an unlimited statement (BulkFnType overload), and
accepted on the fresh limited statement by both overloads. -/
theorem claim3_bulk_mode_guard_witness :
    commaBulk busyStmt = Except.error (DataError.invalidAccess "Mode Conflict") ∧
    commaBulkFn unlimitedStmt
        = Except.error (DataError.invalidAccess "Mode Conflict") ∧
    (∃ s', commaBulk pagedStmt = Except.ok s') ∧
    (∃ s', commaBulkFn pagedStmt = Except.ok s') := by
  refine ⟨((claim3_bulk_mode_guard busyStmt).1 (Or.inl (by decide))).1,
    (claim3_bulk_mode_guard unlimitedStmt).2.1 rfl,
    ((claim3_bulk_mode_guard pagedStmt).2.2 rfl rfl).1,
    ((claim3_bulk_mode_guard pagedStmt).2.2 rfl rfl).2 (by decide)⟩

/-- Claim C4: `canModifyStorage()` is true exactly when no extraction is
registered and the state is Initialized or Done, and each of the storage
manipulators `deque`, `vector`, `list`, `reset` throws
`InvalidAccessException` exactly when it is false. -/
theorem claim4_can_modify_storage (s : Statement) :
    (canModifyStorage s = true ↔
      (extractionCount s = 0 ∧
        (s.core.state = State.ST_INITIALIZED ∨ s.core.state = State.ST_DONE))) ∧
    ((∃ m, Keywords.deque s = Except.error (DataError.invalidAccess m)) ↔
      canModifyStorage s = false) ∧
    ((∃ m, Keywords.vector s = Except.error (DataError.invalidAccess m)) ↔
      canModifyStorage s = false) ∧
    ((∃ m, Keywords.list s = Except.error (DataError.invalidAccess m)) ↔
      canModifyStorage s = false) ∧
    ((∃ m, Keywords.reset s = Except.error (DataError.invalidAccess m)) ↔
      canModifyStorage s = false) := by
  refine ⟨?_, ?_, ?_, ?_, ?_⟩
  · unfold canModifyStorage initialized done extractionCount
    simp only [Bool.and_eq_true, Bool.or_eq_true, decide_eq_true_eq, beq_iff_eq]
    rw [eq_comm (a := (0 : Nat)) (b := s.core.extractCount)]
  · cases hc : canModifyStorage s <;> simp [Keywords.deque, hc]
  · cases hc : canModifyStorage s <;> simp [Keywords.vector, hc]
  · cases hc : canModifyStorage s <;> simp [Keywords.list, hc]
  · cases hc : canModifyStorage s <;> simp [Keywords.reset, hc]

/-- Claim C5: after `setAsync(true)`, `isAsync()` is true and any
`execute` call on an async statement dispatches the job asynchronously,
returns 0 immediately and keeps the flag set; `executeAsync` on a
synchronous statement dispatches the very same job while leaving
`isAsync()` false afterwards. -/
theorem claim5_async_flag (s : Statement) :
    isAsync (setAsync true s) = true ∧
    (s.async = true →
      (execute s).1 = 0 ∧
      (execute s).2.async = true ∧
      (execute s).2.pResult = some (asyncJobOf s)) ∧
    (s.async = false →
      isAsync (executeAsync s).2 = false ∧
      (executeAsync s).2.pResult = some (asyncJobOf s) ∧
      (executeAsync s).1 = asyncJobOf s) := by
  refine ⟨rfl, ?_, ?_⟩
  · intro ha
    unfold execute
    rw [ha]
    exact ⟨rfl, ha, rfl⟩
  · intro ha
    exact ⟨ha, rfl, rfl⟩

/-- Claim C5 witness: `execute` on the async statement returns 0 and
stores the job; `executeAsync` on the synchronous statement leaves
`isAsync()` false. -/
theorem claim5_async_flag_witness :
    (execute asyncStmt).1 = 0 ∧
    (execute asyncStmt).2.pResult = some (asyncJobOf asyncStmt) ∧
    isAsync (executeAsync pagedStmt).2 = false := by
  exact ⟨((claim5_async_flag asyncStmt).2.1 rfl).1,
    ((claim5_async_flag asyncStmt).2.1 rfl).2.2,
    ((claim5_async_flag pagedStmt).2.2 rfl).1⟩

/-- Claim C6: in a build with no SQL parser configured, every
classification query and `statementsCount` return the unspecified
sentinel, `parseError` returns the empty string, and no transaction is
auto-started on execution. -/
theorem claim6_no_parser_unspecified
    (pf : String → Except String (List SqlStatementType))
    (s : Statement) (sess : SessionState) :
    isSelect ⟨false, pf⟩ s = none ∧ isInsert ⟨false, pf⟩ s = none ∧
    isUpdate ⟨false, pf⟩ s = none ∧ isDelete ⟨false, pf⟩ s = none ∧
    hasSelect ⟨false, pf⟩ s = none ∧ hasInsert ⟨false, pf⟩ s = none ∧
    hasUpdate ⟨false, pf⟩ s = none ∧ hasDelete ⟨false, pf⟩ s = none ∧
    parse ⟨false, pf⟩ s = none ∧ statementsCount ⟨false, pf⟩ s = none ∧
    parseError ⟨false, pf⟩ s = "" ∧
    checkBeginTransaction ⟨false, pf⟩ sess s = false := by
  refine ⟨rfl, rfl, rfl, rfl, rfl, rfl, rfl, rfl, rfl, rfl, rfl, ?_⟩
  unfold checkBeginTransaction parseText
  simp

/-- Claim C7: `reset()` always leaves the state Initialized with no
bindings, no extractions and empty accumulated text, and
`reset(session)` does the same while rebinding the statement to the new
session. -/
theorem claim7_reset_postcondition (s : Statement) (sess : Nat) :
    (resetStatement s).core.state = State.ST_INITIALIZED ∧
    (resetStatement s).core.bindCount = 0 ∧
    (resetStatement s).core.extractCount = 0 ∧
    (resetStatement s).core.stmtText = "" ∧
    (resetWithSession sess s).core.state = State.ST_INITIALIZED ∧
    (resetWithSession sess s).core.bindCount = 0 ∧
    (resetWithSession sess s).core.extractCount = 0 ∧
    (resetWithSession sess s).core.stmtText = "" ∧
    (resetWithSession sess s).core.sessionId = sess :=
  ⟨rfl, rfl, rfl, rfl, rfl, rfl, rfl, rfl, rfl⟩

/-- Claim C8: `wait` returns 0 immediately on a statement with no
outstanding asynchronous execution; with an outstanding job it returns
the job's row/affected count when the job completes (which an unbounded
`WAIT_FOREVER` wait always does); a timed-out wait is not an error: it
leaves the statement (and the outstanding job) unchanged, and the same
job can be waited on again. -/
theorem claim8_wait_semantics (s : Statement) (ms : Int) (jf : Bool) :
    (s.pResult = none → wait ms jf s = (WaitOutcome.completed 0, s)) ∧
    (∀ job, s.pResult = some job →
      ((jf = true ∨ ms = WAIT_FOREVER) →
        wait ms jf s = (WaitOutcome.completed job.count, applyJob job s)) ∧
      (jf = false → ms ≠ WAIT_FOREVER →
        wait ms jf s = (WaitOutcome.timedOut, s) ∧
        wait WAIT_FOREVER false s
          = (WaitOutcome.completed job.count, applyJob job s))) := by
  constructor
  · intro h
    simp only [wait, h]
  · intro job hjob
    constructor
    · intro hdone
      simp only [wait, hjob]
      rw [if_pos hdone.symm]
    · intro hjf hms
      constructor
      · simp only [wait, hjob]
        rw [if_neg (by simp [hjf, hms])]
      · simp [wait, hjob]

/-- Claim C8 witness: a bounded wait on the outstanding job times out
and leaves everything in place; the subsequent unbounded wait returns
the job's count (7); a wait on the synchronous statement returns 0. -/
theorem claim8_wait_semantics_witness :
    wait 0 false jobbedStmt = (WaitOutcome.timedOut, jobbedStmt) ∧
    wait WAIT_FOREVER false jobbedStmt
      = (WaitOutcome.completed 7, applyJob sampleJob jobbedStmt) ∧
    wait 5 false pagedStmt = (WaitOutcome.completed 0, pagedStmt) := by
  have h := (claim8_wait_semantics jobbedStmt 0 false).2 sampleJob rfl
  have h2 := h.2 rfl (by decide)
  exact ⟨h2.1, h2.2, (claim8_wait_semantics pagedStmt 5 false).1 rfl⟩

/-- Claim C9: copying a statement with an outstanding, unsynchronized
asynchronous execution first waits for that execution to complete, so
the copy and the original end up identical and both show the job's
final implementation state (hence identical counts and state). -/
theorem claim9_copy_synchronizes (s : Statement) (job : AsyncJob)
    (h : s.pResult = some job) :
    (copyStatement s).1 = (copyStatement s).2 ∧
    (copyStatement s).1.core = job.post ∧
    (copyStatement s).2.core = job.post := by
  have hw : (wait WAIT_FOREVER false s).2.core = job.post := by
    simp [wait, h, applyJob]
  exact ⟨rfl, hw, hw⟩

/-- Claim C9 witness: copying the statement with the outstanding 7-row
job yields two identical statements showing the job's final state. -/
theorem claim9_copy_synchronizes_witness :
    (copyStatement jobbedStmt).1 = (copyStatement jobbedStmt).2 ∧
    (copyStatement jobbedStmt).1.core = sampleJob.post := by
  have h := claim9_copy_synchronizes jobbedStmt sampleJob rfl
  exact ⟨h.1, h.2.1⟩

/-- Claim C10: `getRowFormatter()` never yields a null formatter - on an
unset statement it creates the `SimpleRowFormatter` and stores it, a
repeated call returns that same stored formatter without further change,
and after `setRowFormatter(p)` or the `operator,` overload with a
formatter `p` it returns exactly `p`. -/
theorem claim10_row_formatter (s : Statement) (f : RowFormatter) :
    (getRowFormatter s).2.pRowFormatter = some (getRowFormatter s).1 ∧
    (getRowFormatter { s with pRowFormatter := none }).1 = RowFormatter.simple ∧
    getRowFormatter (getRowFormatter s).2
      = ((getRowFormatter s).1, (getRowFormatter s).2) ∧
    (getRowFormatter (setRowFormatter (some f) s)).1 = f ∧
    (getRowFormatter (commaRowFormatter (some f) s)).1 = f := by
  refine ⟨?_, rfl, ?_, rfl, rfl⟩
  · cases hp : s.pRowFormatter <;> simp [getRowFormatter, hp]
  · cases hp : s.pRowFormatter <;> simp [getRowFormatter, hp]

end PocoData
